import Mathlib

/-!
Verification of the finance-dashboard repository (frontend + Salesforce proxy)
against its natural-language specification.

The development shallowly embeds the relevant program fragments:

  - the Salesforce Express app (server/config.ts, server/routes/auth.ts,
    server/salesforce/client.ts, server/index.ts): environment handling,
    the module-level OAuth token slot, the refresh-token grant, and the
    HTTP handlers for /api/salesforce/status, /accounts and /query;
  - the frontend fetch handlers (app/page.tsx, components/stock-chart.tsx,
    components/prominent-price-display.tsx, components/ticker-overview.tsx):
    how each response is turned into UI state, the trend classification,
    and the derived price/percent change;
  - the market-data backend (TTL cache, response normalizer, ticker
    endpoint), which is not part of the available sources and is therefore
    modelled from the specification text, as marked on each definition.

JavaScript numbers are embedded as Int (timestamps) and Rat (prices);
fallible calls (axios/fetch) are embedded as Except / explicit outcome
parameters; the single mutable token slot and the cache map are embedded
as explicit state passed through the step functions.
-/

namespace Demo101

/-! ## Salesforce server: environment (server/config.ts) -/

/-- Snapshot of the three required Salesforce environment variables.
A variable that is unset is none; note that config.ts tests truthiness,
so an empty string also counts as missing. -/
structure SfEnv where
  clientId : Option String
  clientSecret : Option String
  refreshToken : Option String
deriving Repr, DecidableEq

/-- REQUIRED_SALESFORCE_KEYS from server/config.ts. -/
def requiredSalesforceKeys : List String :=
  ["SALESFORCE_CLIENT_ID", "SALESFORCE_CLIENT_SECRET", "SALESFORCE_REFRESH_TOKEN"]

/-- JavaScript falsiness of an optional string env value: undefined or empty. -/
def falsyEnv : Option String → Bool
  | none => true
  | some s => s = ""

/-- Value of one required key in the snapshot. -/
def SfEnv.get (e : SfEnv) (k : String) : Option String :=
  if k = "SALESFORCE_CLIENT_ID" then e.clientId
  else if k = "SALESFORCE_CLIENT_SECRET" then e.clientSecret
  else if k = "SALESFORCE_REFRESH_TOKEN" then e.refreshToken
  else none

/-- missingSalesforceEnv from server/config.ts: the required keys whose
value is falsy. -/
def missingSalesforceEnv (e : SfEnv) : List String :=
  requiredSalesforceKeys.filter (fun k => falsyEnv (e.get k))

/-- isSalesforceConfigured from server/config.ts. -/
def isSalesforceConfigured (e : SfEnv) : Bool :=
  missingSalesforceEnv e = []

/-! ## Salesforce server: token manager (server/salesforce/client.ts) -/

/-- Body of a successful token-endpoint response. -/
structure TokenResponse where
  access_token : String
  instance_url : String
deriving Repr, DecidableEq

/-- The two module-level variables of client.ts: cachedToken and
tokenExpiresAt. This is the single process-wide token slot. -/
structure TokenState where
  cachedToken : Option TokenResponse
  tokenExpiresAt : Int
deriving Repr, DecidableEq

/-- Initial module state: cachedToken = null, tokenExpiresAt = 0. -/
def initialTokenState : TokenState := ⟨none, 0⟩

/-- Result of one call of refreshAccessToken: what it returns or throws,
the module state afterwards, and whether the token endpoint was contacted. -/
structure RefreshOutcome where
  result : Except String TokenResponse
  state : TokenState
  endpointCalled : Bool
deriving Repr

/-- The non-cached path of refreshAccessToken: perform the refresh-token
grant; the endpoint argument stands for the outcome of the axios.post.
On success both slots are overwritten (token and a fresh expiry of
now + 14 minutes); on failure the throw propagates and the state is
untouched. -/
def performRefresh (st : TokenState) (now : Int)
    (endpoint : Except String TokenResponse) : RefreshOutcome :=
  match endpoint with
  | Except.ok data =>
      ⟨Except.ok data, ⟨some data, now + 14 * 60 * 1000⟩, true⟩
  | Except.error e => ⟨Except.error e, st, true⟩

/-- refreshAccessToken from server/salesforce/client.ts: return the cached
token when cachedToken is set and tokenExpiresAt is more than 30 seconds
past now; otherwise run the refresh grant. -/
def refreshAccessToken (st : TokenState) (now : Int)
    (endpoint : Except String TokenResponse) : RefreshOutcome :=
  match st.cachedToken with
  | some t =>
      if now + 30000 < st.tokenExpiresAt then ⟨Except.ok t, st, false⟩
      else performRefresh st now endpoint
  | none => performRefresh st now endpoint

/-- Body of a successful SOQL query response. -/
structure SoqlResponse where
  totalSize : Int
  done : Bool
  records : List String
deriving Repr, DecidableEq

/-- runSoql from server/salesforce/client.ts: refresh (or reuse) the token,
then issue the query; queryResult stands for the outcome of the query
axios.post. Any throw propagates to the caller. -/
def runSoql (st : TokenState) (now : Int)
    (endpoint : Except String TokenResponse)
    (queryResult : Except String SoqlResponse) :
    Except String SoqlResponse × TokenState × Bool :=
  let r := refreshAccessToken st now endpoint
  match r.result with
  | Except.error e => (Except.error e, r.state, r.endpointCalled)
  | Except.ok _ => (queryResult, r.state, r.endpointCalled)

/-! ## Salesforce server: HTTP handlers (server/routes/auth.ts, server/index.ts) -/

/-- The JSON bodies this server sends, as one record of optional fields;
a field that a given response does not contain is none. -/
structure ResponseBody where
  message : Option String
  missing : Option (List String)
  configured : Option Bool
  soql : Option SoqlResponse
  invalidIssues : Bool
deriving Repr, DecidableEq

/-- An HTTP response of the Salesforce server. -/
structure SfHttpResponse where
  status : Nat
  body : ResponseBody
deriving Repr, DecidableEq

/-- The 503 message of POST /api/salesforce/query. -/
def queryMissingMessage : String :=
  "Salesforce credentials are missing. Update your .env file to enable queries."

/-- The 503 message of GET /api/salesforce/accounts. -/
def accountsMissingMessage : String :=
  "Salesforce credentials are missing. Update your .env file to enable this endpoint."

/-- The body of the final express error handler in server/index.ts. -/
def internalErrorMessage : String := "Internal Server Error"

/-- querySchema.parse from routes/auth.ts: the body must carry a query
field holding a string of length at least 1; body = none stands for a
request whose body has no usable query string. -/
def parseQueryBody (body : Option String) : Option String :=
  match body with
  | some q => if 1 ≤ q.length then some q else none
  | none => none

/-- Result of one request against the server: the HTTP response, the token
slot afterwards, and how many calls hit the OAuth token endpoint. -/
structure HandlerResult where
  response : SfHttpResponse
  state : TokenState
  tokenEndpointCalls : Nat
deriving Repr

/-- POST /api/salesforce/query from routes/auth.ts wired to the express
error handler of server/index.ts: unconfigured env gets a 503, an invalid
body a 400, a successful query a 200, and every other throw is passed to
next(error) which answers 500 Internal Server Error. -/
def handlePostQuery (e : SfEnv) (st : TokenState) (now : Int)
    (body : Option String)
    (endpoint : Except String TokenResponse)
    (queryResult : Except String SoqlResponse) : HandlerResult :=
  if isSalesforceConfigured e = false then
    ⟨⟨503, ⟨some queryMissingMessage, none, none, none, false⟩⟩, st, 0⟩
  else
    match parseQueryBody body with
    | none => ⟨⟨400, ⟨some "Invalid query", none, none, none, true⟩⟩, st, 0⟩
    | some _ =>
        match runSoql st now endpoint queryResult with
        | (Except.ok data, st2, called) =>
            ⟨⟨200, ⟨none, none, none, some data, false⟩⟩, st2, if called then 1 else 0⟩
        | (Except.error _, st2, called) =>
            ⟨⟨500, ⟨some internalErrorMessage, none, none, none, false⟩⟩, st2,
              if called then 1 else 0⟩

/-- GET /api/salesforce/accounts from routes/auth.ts wired to the express
error handler: like the query handler but with a fixed sample query and
no body validation. -/
def handleGetAccounts (e : SfEnv) (st : TokenState) (now : Int)
    (endpoint : Except String TokenResponse)
    (queryResult : Except String SoqlResponse) : HandlerResult :=
  if isSalesforceConfigured e = false then
    ⟨⟨503, ⟨some accountsMissingMessage, none, none, none, false⟩⟩, st, 0⟩
  else
    match runSoql st now endpoint queryResult with
    | (Except.ok data, st2, called) =>
        ⟨⟨200, ⟨none, none, none, some data, false⟩⟩, st2, if called then 1 else 0⟩
    | (Except.error _, st2, called) =>
        ⟨⟨500, ⟨some internalErrorMessage, none, none, none, false⟩⟩, st2,
          if called then 1 else 0⟩

/-- GET /api/salesforce/status from routes/auth.ts: always 200, reporting
the configured flag and the list of missing required variables. -/
def handleGetStatus (e : SfEnv) : SfHttpResponse :=
  ⟨200, ⟨none,
    some (if isSalesforceConfigured e then [] else missingSalesforceEnv e),
    some (isSalesforceConfigured e), none, false⟩⟩

/-! ## Concrete inputs for the Salesforce claims -/

/-- A fully configured environment. -/
def envFull : SfEnv := ⟨some "client-id", some "client-secret", some "refresh-tok"⟩

/-- An environment whose SALESFORCE_REFRESH_TOKEN is unset. -/
def envNoRefresh : SfEnv := ⟨some "client-id", some "client-secret", none⟩

/-- A sample successful SOQL response. -/
def sampleSoql : SoqlResponse := ⟨1, true, ["Account-0012345"]⟩

/-- A sample token-endpoint success body. -/
def sampleToken : TokenResponse := ⟨"00Daccess", "https://example.my.salesforce.com"⟩

/-- A second token body, distinct from sampleToken. -/
def sampleToken2 : TokenResponse := ⟨"00Dnewer", "https://example.my.salesforce.com"⟩

/-! ## Theorems about the Salesforce token manager -/

/-- Claim C3: for every call of the token manager, the cached token is
returned without contacting the token endpoint exactly when the recorded
expiry is more than 30 seconds past now (in any reachable state: a state
with an empty slot has expiry 0); a cached return leaves the single slot
untouched; a successful refresh overwrites the slot with the new token
and the fresh expiry now + 14 minutes. -/
theorem C3_token_slot (st : TokenState) (now : Int)
    (ep : Except String TokenResponse)
    (hreach : st.cachedToken = none → st.tokenExpiresAt = 0)
    (hnow : 0 ≤ now) :
    ((refreshAccessToken st now ep).endpointCalled = false ↔
      now + 30000 < st.tokenExpiresAt)
    ∧ ((refreshAccessToken st now ep).endpointCalled = false →
        (refreshAccessToken st now ep).state = st
        ∧ ∃ t, st.cachedToken = some t
            ∧ (refreshAccessToken st now ep).result = Except.ok t)
    ∧ (∀ data, ep = Except.ok data →
        (refreshAccessToken st now ep).endpointCalled = true →
        (refreshAccessToken st now ep).state =
          ⟨some data, now + 14 * 60 * 1000⟩
        ∧ (refreshAccessToken st now ep).result = Except.ok data) := by
  unfold refreshAccessToken performRefresh
  rcases hst : st.cachedToken with _ | t
  · have hz : st.tokenExpiresAt = 0 := hreach hst
    rcases ep with e | data <;>
      simp [hz] <;> omega
  · by_cases hlt : now + 30000 < st.tokenExpiresAt
    · simp [hlt, hst]
    · rcases ep with e | data <;> simp [hlt]

/-- Witness for C3_token_slot at a concrete fresh-slot state: the slot
holds a valid token until 100000 ms, so a call at time 0 answers from the
cache without contacting the endpoint. -/
theorem C3_token_slot_witness :
    ((refreshAccessToken ⟨some sampleToken, 100000⟩ 0
        (Except.ok sampleToken2)).endpointCalled = false ↔
      (0 : Int) + 30000 < (100000 : Int))
    ∧ ((refreshAccessToken ⟨some sampleToken, 100000⟩ 0
        (Except.ok sampleToken2)).endpointCalled = false →
        (refreshAccessToken ⟨some sampleToken, 100000⟩ 0
          (Except.ok sampleToken2)).state = ⟨some sampleToken, 100000⟩
        ∧ ∃ t, (some sampleToken : Option TokenResponse) = some t
            ∧ (refreshAccessToken ⟨some sampleToken, 100000⟩ 0
                (Except.ok sampleToken2)).result = Except.ok t)
    ∧ (∀ data, (Except.ok sampleToken2 : Except String TokenResponse) = Except.ok data →
        (refreshAccessToken ⟨some sampleToken, 100000⟩ 0
          (Except.ok sampleToken2)).endpointCalled = true →
        (refreshAccessToken ⟨some sampleToken, 100000⟩ 0
          (Except.ok sampleToken2)).state =
          ⟨some data, 0 + 14 * 60 * 1000⟩
        ∧ (refreshAccessToken ⟨some sampleToken, 100000⟩ 0
            (Except.ok sampleToken2)).result = Except.ok data) :=
  C3_token_slot ⟨some sampleToken, 100000⟩ 0 (Except.ok sampleToken2)
    (by intro h; cases h) (by norm_num)

/-! ## Theorems about the Salesforce HTTP handlers -/

/-- Helper: regardless of input, one POST /query request makes at most one
token-endpoint call and always ends in one of the four response statuses
(the handler never lets a throw escape the error middleware). -/
theorem handlePostQuery_total (e : SfEnv) (st : TokenState) (now : Int)
    (b : Option String) (ep : Except String TokenResponse)
    (qr : Except String SoqlResponse) :
    (handlePostQuery e st now b ep qr).tokenEndpointCalls ≤ 1
    ∧ (handlePostQuery e st now b ep qr).response.status ∈
        ([200, 400, 500, 503] : List Nat) := by
  unfold handlePostQuery
  split
  · simp
  · split
    · simp
    · split <;> split <;> simp

/-- Helper: a stale or empty token slot makes refreshAccessToken go to the
endpoint, and a failing endpoint call surfaces as a throw. -/
theorem refreshAccessToken_stale_error (st : TokenState) (now : Int) (err : String)
    (hstale : ¬ now + 30000 < st.tokenExpiresAt ∨ st.cachedToken = none) :
    refreshAccessToken st now (Except.error err) =
      ⟨Except.error err, st, true⟩ := by
  unfold refreshAccessToken performRefresh
  rcases hst : st.cachedToken with _ | t
  · rfl
  · rcases hstale with h | h
    · simp [h]
    · rw [hst] at h; cases h

/-- Claim C1 as stated is false: with credentials configured and a failing
refresh-token exchange, POST /api/salesforce/query answers 500 Internal
Server Error (via the express error middleware), not 503 with a message
about configuring credentials. -/
theorem C1_counterexample :
    (handlePostQuery envFull initialTokenState 1000000
        (some "SELECT Id FROM Account")
        (Except.error "getaddrinfo ENOTFOUND login.salesforce.com")
        (Except.ok sampleSoql)).response.status = 500
    ∧ (handlePostQuery envFull initialTokenState 1000000
        (some "SELECT Id FROM Account")
        (Except.error "getaddrinfo ENOTFOUND login.salesforce.com")
        (Except.ok sampleSoql)).response.status ≠ 503
    ∧ (handlePostQuery envFull initialTokenState 1000000
        (some "SELECT Id FROM Account")
        (Except.error "getaddrinfo ENOTFOUND login.salesforce.com")
        (Except.ok sampleSoql)).response.body.message
        = some internalErrorMessage := by
  refine ⟨rfl, by decide, rfl⟩

/-- Claim C1 amended: with Salesforce credentials configured, a valid body
and a token slot that cannot be served from cache, a failing refresh-token
exchange makes POST /api/salesforce/query answer 500 with body message
Internal Server Error, after exactly one token-endpoint call; moreover
for all inputs whatsoever the handler makes at most one token-endpoint
call (no retry loop) and always produces a response with status 200, 400,
500 or 503 (the failure does not crash the process). -/
theorem C1_refresh_failure_maps_to_500 (e : SfEnv) (st : TokenState) (now : Int)
    (q err : String) (qr : Except String SoqlResponse)
    (hconf : isSalesforceConfigured e = true)
    (hq : 1 ≤ q.length)
    (hstale : ¬ now + 30000 < st.tokenExpiresAt ∨ st.cachedToken = none) :
    ((handlePostQuery e st now (some q) (Except.error err) qr).response.status = 500
    ∧ (handlePostQuery e st now (some q) (Except.error err) qr).response.body.message
        = some internalErrorMessage
    ∧ (handlePostQuery e st now (some q) (Except.error err) qr).tokenEndpointCalls = 1)
    ∧ (∀ e2 st2 now2 b2 ep2 qr2,
        (handlePostQuery e2 st2 now2 b2 ep2 qr2).tokenEndpointCalls ≤ 1
        ∧ (handlePostQuery e2 st2 now2 b2 ep2 qr2).response.status ∈
            ([200, 400, 500, 503] : List Nat)) := by
  refine ⟨?_, fun e2 st2 now2 b2 ep2 qr2 => handlePostQuery_total e2 st2 now2 b2 ep2 qr2⟩
  have hrefresh := refreshAccessToken_stale_error st now err hstale
  simp [handlePostQuery, hconf, parseQueryBody, hq, runSoql, hrefresh]

/-- Witness for C1_refresh_failure_maps_to_500 at a concrete configured
environment, empty token slot and a failing token exchange. -/
theorem C1_refresh_failure_witness :
    (handlePostQuery envFull initialTokenState 2000000
        (some "SELECT Name FROM Account")
        (Except.error "invalid_grant") (Except.ok sampleSoql)).response.status = 500 :=
  (C1_refresh_failure_maps_to_500 envFull initialTokenState 2000000
    "SELECT Name FROM Account" "invalid_grant" (Except.ok sampleSoql)
    (by decide) (by decide) (Or.inr rfl)).1.1

/-- Claim C2 as stated is false: the 503 of POST /api/salesforce/query
with a missing SALESFORCE_REFRESH_TOKEN does state that credentials are
missing, but its body carries no missing field listing the absent
variables (that list only appears in the 200 body of GET /status). -/
theorem C2_counterexample :
    (handlePostQuery envNoRefresh initialTokenState 0
        (some "SELECT Id FROM Account")
        (Except.ok sampleToken) (Except.ok sampleSoql)).response.status = 503
    ∧ (handlePostQuery envNoRefresh initialTokenState 0
        (some "SELECT Id FROM Account")
        (Except.ok sampleToken) (Except.ok sampleSoql)).response.body.missing
        = none := ⟨rfl, rfl⟩

/-- Claim C2 amended: with any required Salesforce variable missing, both
POST /query and GET /accounts answer 503 with a body whose message states
that credentials are missing but with no missing field; the list of
absent variables is instead served by GET /api/salesforce/status, whose
200 body reports configured = false and missing = the required keys whose
value is unset or empty. -/
theorem C2_unconfigured_503 (e : SfEnv) (st : TokenState) (now : Int)
    (b : Option String) (ep : Except String TokenResponse)
    (qr : Except String SoqlResponse)
    (hconf : isSalesforceConfigured e = false) :
    ((handlePostQuery e st now b ep qr).response.status = 503
     ∧ (handlePostQuery e st now b ep qr).response.body.message
        = some queryMissingMessage
     ∧ (handlePostQuery e st now b ep qr).response.body.missing = none)
    ∧ ((handleGetAccounts e st now ep qr).response.status = 503
     ∧ (handleGetAccounts e st now ep qr).response.body.message
        = some accountsMissingMessage
     ∧ (handleGetAccounts e st now ep qr).response.body.missing = none)
    ∧ (handleGetStatus e).status = 200
    ∧ (handleGetStatus e).body.configured = some false
    ∧ (handleGetStatus e).body.missing = some (missingSalesforceEnv e)
    ∧ (∀ k, k ∈ missingSalesforceEnv e ↔
        k ∈ requiredSalesforceKeys ∧ falsyEnv (e.get k) = true) := by
  refine ⟨?_, ?_, ?_, ?_, ?_, ?_⟩
  · simp [handlePostQuery, hconf]
  · simp [handleGetAccounts, hconf]
  · rfl
  · simp [handleGetStatus, hconf]
  · simp [handleGetStatus, hconf]
  · intro k
    simp [missingSalesforceEnv, List.mem_filter]

/-- Witness for C2_unconfigured_503 at an environment whose refresh token
is unset. -/
theorem C2_unconfigured_witness :
    (handlePostQuery envNoRefresh initialTokenState 500
        (some "SELECT Id FROM Contact")
        (Except.ok sampleToken) (Except.ok sampleSoql)).response.status = 503 :=
  (C2_unconfigured_503 envNoRefresh initialTokenState 500
    (some "SELECT Id FROM Contact") (Except.ok sampleToken) (Except.ok sampleSoql)
    (by decide)).1.1

/-- Claim C8: when the HTTP call of the refresh grant throws, the cached
token slot and its recorded expiry are left exactly as they were. -/
theorem C8_refresh_error_keeps_state (st : TokenState) (now : Int) (e : String) :
    (refreshAccessToken st now (Except.error e)).state = st := by
  unfold refreshAccessToken performRefresh
  rcases st.cachedToken with _ | t
  · rfl
  · by_cases hlt : now + 30000 < st.tokenExpiresAt <;> simp [hlt]

/-! ## Frontend fetch handling (app/page.tsx, components/stock-chart.tsx,
components/prominent-price-display.tsx) -/

/-- What a frontend fetch sees of a backend response: the ok flag, the
status, the optional detail string of the error body (collapsing
detail.message and detail into one field, as the display code does), and
whether a 200 overview body carries a results value. -/
structure FetchResponse where
  ok : Bool
  status : Nat
  detail : Option String
  resultsPresent : Bool
deriving Repr, DecidableEq

/-- The error message the page and chart build from a non-ok response:
errorData.detail.message or errorData.detail, else Error: status. -/
def buildFetchErrorMessage (r : FetchResponse) : String :=
  match r.detail with
  | some d => d
  | none => "Error: " ++ toString r.status

/-- UI state left by one run of fetchTickerData in app/page.tsx. -/
structure PageFetchState where
  error : Option String
  dataSet : Bool
  dataResultsPresent : Bool
  snapshotSet : Bool
  financialsSet : Bool
deriving Repr, DecidableEq

/-- fetchTickerData from app/page.tsx: a non-ok overview response throws,
which sets the error message and leaves every data slot empty (the
snapshot and financials responses are never examined); an ok overview
sets data, and the snapshot and financials slots are set only when their
own responses are ok, with nothing recorded otherwise. -/
def fetchTickerData (overview snapshot financials : FetchResponse) : PageFetchState :=
  if overview.ok = false then
    ⟨some (buildFetchErrorMessage overview), false, false, false, false⟩
  else
    ⟨none, true, overview.resultsPresent, snapshot.ok, financials.ok⟩

/-- The destructive error alert of page.tsx renders exactly when the error
state is set. -/
def shownErrorAlert (st : PageFetchState) : Bool := st.error.isSome

/-- The text No data available renders exactly when TickerOverview is
mounted (data set, not loading) with a body that has no results
(components/ticker-overview.tsx, no-results branch). -/
def shownNoDataText (st : PageFetchState) : Bool :=
  st.dataSet && !st.dataResultsPresent

/-- How one fetch response is surfaced to the user. -/
inductive FetchUiOutcome
  | displayedData
  | displayedError (msg : String)
  | nothingShown
deriving Repr, DecidableEq

/-- Whether an outcome shows an error to the user. -/
def FetchUiOutcome.showsError : FetchUiOutcome → Bool
  | displayedError _ => true
  | _ => false

/-- Handling of one response: what is rendered, and how many further
requests the handler issues after seeing the response. -/
structure FetchHandling where
  outcome : FetchUiOutcome
  followUpRequests : Nat
deriving Repr, DecidableEq

/-- The overview fetch of app/page.tsx: non-ok throws into the catch,
which displays the built message; no code path issues another request. -/
def overviewFetchHandling (r : FetchResponse) : FetchHandling :=
  if r.ok then ⟨FetchUiOutcome.displayedData, 0⟩
  else ⟨FetchUiOutcome.displayedError (buildFetchErrorMessage r), 0⟩

/-- The snapshot fetch of app/page.tsx: the body is used only when ok;
a non-ok response is skipped silently. -/
def snapshotFetchHandling (r : FetchResponse) : FetchHandling :=
  if r.ok then ⟨FetchUiOutcome.displayedData, 0⟩
  else ⟨FetchUiOutcome.nothingShown, 0⟩

/-- The financials fetch of app/page.tsx: same silent skip on non-ok. -/
def financialsFetchHandling (r : FetchResponse) : FetchHandling :=
  if r.ok then ⟨FetchUiOutcome.displayedData, 0⟩
  else ⟨FetchUiOutcome.nothingShown, 0⟩

/-- fetchChartData from components/stock-chart.tsx: non-ok throws and the
catch displays the built message next to a Retry button; no code path
issues another request on its own. -/
def historyFetchHandling (r : FetchResponse) : FetchHandling :=
  if r.ok then ⟨FetchUiOutcome.displayedData, 0⟩
  else ⟨FetchUiOutcome.displayedError (buildFetchErrorMessage r), 0⟩

/-- fetchPriceSummary from components/prominent-price-display.tsx: the
body is read only when response.ok; a non-ok response is ignored and the
component keeps rendering nothing (it has no error state at all). -/
def priceSummaryFetchHandling (r : FetchResponse) : FetchHandling :=
  if r.ok then ⟨FetchUiOutcome.displayedData, 0⟩
  else ⟨FetchUiOutcome.nothingShown, 0⟩

/-- handleRetry from components/stock-chart.tsx: the user-triggered Retry
control, issuing one history request when a ticker is set. -/
def handleRetryRequests (ticker : String) : Nat :=
  if ticker = "" then 0 else 1

/-- Claim C4 as stated is false: the price-summary fetch does not treat a
non-2xx response as a display-level error; it shows nothing at all. -/
theorem C4_counterexample :
    (priceSummaryFetchHandling ⟨false, 404, some "No data found", false⟩).outcome
      = FetchUiOutcome.nothingShown
    ∧ ((priceSummaryFetchHandling ⟨false, 404, some "No data found", false⟩).outcome).showsError
      = false := ⟨rfl, rfl⟩

/-- Claim C4 amended: a non-2xx response is shown as a display-level error
by the overview and chart-history fetches only; the snapshot, financials
and price-summary fetches silently ignore a non-2xx response and render
nothing for it; no fetch handler ever issues a follow-up request of its
own (no automatic retry), and the explicit user Retry control issues at
most one request. -/
theorem C4_fetch_error_handling (r : FetchResponse) :
    (r.ok = false →
      (overviewFetchHandling r).outcome
        = FetchUiOutcome.displayedError (buildFetchErrorMessage r)
      ∧ (historyFetchHandling r).outcome
        = FetchUiOutcome.displayedError (buildFetchErrorMessage r)
      ∧ (snapshotFetchHandling r).outcome = FetchUiOutcome.nothingShown
      ∧ (financialsFetchHandling r).outcome = FetchUiOutcome.nothingShown
      ∧ (priceSummaryFetchHandling r).outcome = FetchUiOutcome.nothingShown)
    ∧ ((overviewFetchHandling r).followUpRequests = 0
      ∧ (historyFetchHandling r).followUpRequests = 0
      ∧ (snapshotFetchHandling r).followUpRequests = 0
      ∧ (financialsFetchHandling r).followUpRequests = 0
      ∧ (priceSummaryFetchHandling r).followUpRequests = 0)
    ∧ (∀ t : String, handleRetryRequests t ≤ 1) := by
  unfold overviewFetchHandling historyFetchHandling snapshotFetchHandling
    financialsFetchHandling priceSummaryFetchHandling handleRetryRequests
  refine ⟨fun hok => ?_, ?_, fun t => ?_⟩
  · simp [hok]
  · rcases hok : r.ok <;> simp [hok]
  · split <;> omega

/-- Witness for C4_fetch_error_handling at a concrete 500 response. -/
theorem C4_fetch_error_witness :
    (overviewFetchHandling ⟨false, 500, none, false⟩).outcome
      = FetchUiOutcome.displayedError
          (buildFetchErrorMessage ⟨false, 500, none, false⟩) :=
  ((C4_fetch_error_handling ⟨false, 500, none, false⟩).1 rfl).1

/-! ## Trend classification and derived price change (stock chart and
prominent price display) -/

/-- The three user-visible trends: the flat icon, the upward icon and the
downward icon. -/
inductive Trend
  | flat
  | up
  | down
deriving Repr, DecidableEq

/-- Trend selection of the stock chart (src/unnamed/part_000, StockChart):
flat when the absolute percent change is under 0.5, else the positive
branch picks upward and the remaining branch downward; icon, line color
and dot color all follow this selection. -/
def stockChartTrend (priceChange percentChange : ℚ) : Trend :=
  if |percentChange| < 1/2 then Trend.flat
  else if 0 < priceChange then Trend.up
  else Trend.down

/-- Trend selection of ProminentPriceDisplay
(components/prominent-price-display.tsx): the same flat test on
percent_change, then the positive test on price_change, else downward;
icon, color and sign prefix all follow this selection. -/
def prominentDisplayTrend (price_change percent_change : ℚ) : Trend :=
  if |percent_change| < 1/2 then Trend.flat
  else if 0 < price_change then Trend.up
  else Trend.down

/-- Claim C9 as stated is false at price change 0 with percent change 1:
both components render the downward trend there although the price change
is not negative (the downward branch is the catch-all else, not a
negativity test). -/
theorem C9_counterexample :
    stockChartTrend 0 1 = Trend.down
    ∧ prominentDisplayTrend 0 1 = Trend.down
    ∧ ¬ ((0 : ℚ) < 0) := by
  refine ⟨?_, ?_, by norm_num⟩ <;>
    simp [stockChartTrend, prominentDisplayTrend, abs_of_nonneg] <;> norm_num

/-- Claim C9 amended: the two components classify every pair identically;
the classification is flat exactly when the absolute percent change is
under 0.5, and otherwise upward exactly when the price change is positive
and downward exactly when it is not positive. -/
theorem C9_trend_equivalence (pc pct : ℚ) :
    stockChartTrend pc pct = prominentDisplayTrend pc pct
    ∧ (stockChartTrend pc pct = Trend.flat ↔ |pct| < 1/2)
    ∧ (¬ |pct| < 1/2 →
        ((stockChartTrend pc pct = Trend.up ↔ 0 < pc)
        ∧ (stockChartTrend pc pct = Trend.down ↔ ¬ 0 < pc))) := by
  unfold stockChartTrend prominentDisplayTrend
  by_cases hf : |pct| < 1/2
  · rw [if_pos hf]
    exact ⟨rfl, iff_of_true rfl hf, fun h => absurd hf h⟩
  · rw [if_neg hf]
    by_cases hp : 0 < pc
    · rw [if_pos hp]
      exact ⟨rfl, iff_of_false (by simp) hf,
        fun _ => ⟨iff_of_true rfl hp, iff_of_false (by simp) (not_not_intro hp)⟩⟩
    · rw [if_neg hp]
      exact ⟨rfl, iff_of_false (by simp) hf,
        fun _ => ⟨iff_of_false (by simp) hp, iff_of_true rfl hp⟩⟩

/-- Witness for C9_trend_equivalence at a concrete pair. -/
theorem C9_trend_witness :
    stockChartTrend 2 3 = prominentDisplayTrend 2 3 :=
  (C9_trend_equivalence 2 3).1

/-- priceChange of the stock chart (both stock-chart.tsx copies): last
close minus first close when at least two points exist, else 0. -/
def stockChartPriceChange (closes : List ℚ) : ℚ :=
  if 2 ≤ closes.length then closes.getLastD 0 - closes.headD 0 else 0

/-- percentChange of the stock chart: priceChange over the first close
times 100 when at least two points exist, else 0. -/
def stockChartPercentChange (closes : List ℚ) : ℚ :=
  if 2 ≤ closes.length then stockChartPriceChange closes / closes.headD 0 * 100
  else 0

/-- Claim C10: with fewer than two points both displayed changes are 0;
with at least two points and a nonzero first close, the price change is
the last close minus the first and the percent change is that difference
over the first close times 100. -/
theorem C10_price_change (closes : List ℚ) :
    (closes.length < 2 →
      stockChartPriceChange closes = 0 ∧ stockChartPercentChange closes = 0)
    ∧ (∀ a b t, closes = a :: b :: t → a ≠ 0 →
        stockChartPriceChange closes = closes.getLastD 0 - a
        ∧ stockChartPercentChange closes = (closes.getLastD 0 - a) / a * 100) := by
  constructor
  · intro h
    have h2 : ¬ 2 ≤ closes.length := by omega
    simp [stockChartPriceChange, stockChartPercentChange, h2]
  · rintro a b t rfl ha
    have h2 : 2 ≤ (a :: b :: t).length := by
      simp [List.length_cons]
    simp [stockChartPriceChange, stockChartPercentChange, h2]

/-- Witness for C10_price_change on the series 10, 11, 12. -/
theorem C10_price_change_witness :
    stockChartPriceChange [10, 11, 12]
      = ([10, 11, 12] : List ℚ).getLastD 0 - 10
    ∧ stockChartPercentChange [10, 11, 12]
      = (([10, 11, 12] : List ℚ).getLastD 0 - 10) / 10 * 100 :=
  (C10_price_change [10, 11, 12]).2 10 11 [12] rfl (by norm_num)

/-! ## Market-data backend, modelled from the spec

The Python backend (yfinance client, normalizer, TTL cache, ticker
endpoints) is not among the available sources; only its frontend callers
are. The definitions in this section are therefore modelled from the
specification text (sections 3, 4.1, 4.2, 4.3 and 8) and from the data
mapping table of the migration plan kept in the repository. -/

/-- Provider payload for a ticker, in the shape of the yfinance
Ticker.info fields named by the migration mapping table; every field is
optional. -/
structure ProviderInfo where
  symbol : Option String
  longName : Option String
  shortName : Option String
  marketCap : Option Int
  market : Option String
  exchange : Option String
  longBusinessSummary : Option String
  website : Option String
  fullTimeEmployees : Option Int
  industry : Option String
  city : Option String
  state : Option String
deriving Repr, DecidableEq

/-- The stable normalized results shape consumed by the frontend. -/
structure NormalizedResults where
  ticker : Option String
  name : Option String
  market_cap : Option Int
  market : Option String
  primary_exchange : Option String
  description : Option String
  homepage_url : Option String
  total_employees : Option Int
  sic_description : Option String
  city : Option String
  state : Option String
  logo_url : Option String
deriving Repr, DecidableEq

/-- Modelled from the spec: the response normalizer of the backend
(yfinance client, not under src). Per the mapping table: ticker from
symbol, name from longName falling back to shortName, market_cap from
marketCap, primary_exchange from exchange, description from
longBusinessSummary, homepage_url from website, total_employees from
fullTimeEmployees, sic_description from industry; the logo URL is derived
from the company domain via the Clearbit pattern; an absent optional
field stays absent in the output rather than failing. -/
def normalizeOverview (p : ProviderInfo) : NormalizedResults :=
  ⟨p.symbol,
    (p.longName.orElse (fun _ => p.shortName)),
    p.marketCap,
    p.market,
    p.exchange,
    p.longBusinessSummary,
    p.website,
    p.fullTimeEmployees,
    p.industry,
    p.city,
    p.state,
    p.website.map (fun domain => "https://logo.clearbit.com/" ++ domain)⟩

/-- An HTTP response of the market-data backend. -/
structure BackendResponse where
  status : Nat
  results : Option NormalizedResults
  detail : Option String
deriving Repr, DecidableEq

/-- The 404 detail for a ticker the provider knows nothing about. -/
def tickerNotFoundDetail : String := "Ticker not found"

/-- Modelled from the spec: GET /api/ticker/(ticker) of the backend (not
under src). The provider argument is what the upstream returned for the
ticker: nothing (unknown ticker, empty or not-found) gives a 404 with a
detail, data gives a 200 whose results field is the normalized payload. -/
def tickerEndpoint (provider : Option ProviderInfo) : BackendResponse :=
  match provider with
  | none => ⟨404, none, some tickerNotFoundDetail⟩
  | some p => ⟨200, some (normalizeOverview p), none⟩

/-- How a backend response looks to one frontend fetch call. -/
def backendToFetchResponse (r : BackendResponse) : FetchResponse :=
  ⟨if 200 ≤ r.status ∧ r.status < 300 then true else false,
    r.status, r.detail, r.results.isSome⟩

/-- The provider payload of the AAPL scenario in section 8. -/
def aaplProvider : ProviderInfo :=
  ⟨some "AAPL", some "Apple Inc.", none, some 3000000000000,
    none, none, none, none, none, none, none, none⟩

/-- A provider payload with every optional field absent. -/
def emptyProvider : ProviderInfo :=
  ⟨none, none, none, none, none, none, none, none, none, none, none, none⟩

/-- Claim C6 (normalizer modelled from the spec): the AAPL payload
normalizes to results with ticker AAPL, name Apple Inc. and market_cap
3000000000000 inside a 200 response; and the normalizer is total on the
all-absent payload, whose output omits every optional field. -/
theorem C6_normalizer :
    (tickerEndpoint (some aaplProvider)).status = 200
    ∧ (tickerEndpoint (some aaplProvider)).results
        = some (normalizeOverview aaplProvider)
    ∧ (normalizeOverview aaplProvider).ticker = some "AAPL"
    ∧ (normalizeOverview aaplProvider).name = some "Apple Inc."
    ∧ (normalizeOverview aaplProvider).market_cap = some 3000000000000
    ∧ normalizeOverview emptyProvider =
        ⟨none, none, none, none, none, none, none, none, none, none, none, none⟩ :=
  ⟨rfl, rfl, rfl, rfl, rfl, rfl⟩

/-- Claim C7 as stated is false on the frontend side: for an unknown
ticker the backend (modelled from the spec) answers 404, but the page
then shows the error alert with the 404 detail and never mounts
TickerOverview, so the text No data available is not displayed. -/
theorem C7_counterexample :
    (tickerEndpoint none).status = 404
    ∧ shownNoDataText
        (fetchTickerData (backendToFetchResponse (tickerEndpoint none))
          ⟨true, 200, none, true⟩ ⟨true, 200, none, true⟩) = false
    ∧ shownErrorAlert
        (fetchTickerData (backendToFetchResponse (tickerEndpoint none))
          ⟨true, 200, none, true⟩ ⟨true, 200, none, true⟩) = true
    ∧ (fetchTickerData (backendToFetchResponse (tickerEndpoint none))
          ⟨true, 200, none, true⟩ ⟨true, 200, none, true⟩).error
        = some tickerNotFoundDetail := ⟨rfl, rfl, rfl, rfl⟩

/-- Claim C7 amended: an unknown ticker gets a 404 from the backend
(modelled from the spec); the frontend then displays the 404 detail in
the error alert instead of the text No data available; that text renders
exactly when the overview response is ok but carries no results value. -/
theorem C7_unknown_ticker :
    (tickerEndpoint none).status = 404
    ∧ (∀ s f : FetchResponse,
        shownErrorAlert
          (fetchTickerData (backendToFetchResponse (tickerEndpoint none)) s f) = true
        ∧ shownNoDataText
          (fetchTickerData (backendToFetchResponse (tickerEndpoint none)) s f) = false
        ∧ (fetchTickerData (backendToFetchResponse (tickerEndpoint none)) s f).error
          = some tickerNotFoundDetail)
    ∧ (∀ o s f : FetchResponse,
        shownNoDataText (fetchTickerData o s f) = true
          ↔ (o.ok = true ∧ o.resultsPresent = false)) := by
  refine ⟨rfl, fun s f => ⟨rfl, rfl, rfl⟩, fun o s f => ?_⟩
  unfold fetchTickerData shownNoDataText
  rcases hok : o.ok <;> simp [hok]

/-- Witness for C7_unknown_ticker at concrete companion responses. -/
theorem C7_unknown_ticker_witness :
    shownErrorAlert
      (fetchTickerData (backendToFetchResponse (tickerEndpoint none))
        ⟨false, 500, none, false⟩ ⟨false, 500, none, false⟩) = true :=
  (C7_unknown_ticker.2.1 ⟨false, 500, none, false⟩ ⟨false, 500, none, false⟩).1

/-! ## The backend TTL cache, modelled from the spec -/

/-- A cache entry: the stored normalized payload and its expiry. -/
structure CacheEntry where
  value : String
  expiresAt : Int
deriving Repr, DecidableEq

/-- The shared in-memory map, keyed by endpoint name plus parameters. -/
abbrev Cache := List (String × CacheEntry)

/-- Entry lookup in the map. -/
def cacheFind : Cache → String → Option CacheEntry
  | [], _ => none
  | (k2, e) :: rest, k => if k2 = k then some e else cacheFind rest k

/-- Removal of a key from the map. -/
def cacheErase : Cache → String → Cache
  | [], _ => []
  | (k2, e) :: rest, k =>
      if k2 = k then cacheErase rest k else (k2, e) :: cacheErase rest k

/-- Store a key, overwriting any previous entry for it. -/
def cacheInsert (c : Cache) (k : String) (e : CacheEntry) : Cache :=
  (k, e) :: cacheErase c k

/-- Modelled from the spec: cache lookup of the backend TTL cache (the
backend is not under src). A hit is returned iff now < expiresAt of the
stored entry; otherwise the entry is evicted and the lookup is a miss. -/
def cacheLookup (c : Cache) (k : String) (now : Int) : Option String × Cache :=
  match cacheFind c k with
  | some e =>
      if now < e.expiresAt then (some e.value, c) else (none, cacheErase c k)
  | none => (none, c)

/-- Modelled from the spec: cache-aside request handling (section 4.1).
On a hit the cached payload is returned without an upstream call; on a
miss the upstream provider is invoked, the result stored with expiry
now + TTL, and returned. The Bool reports whether upstream was called. -/
def cacheRequest (c : Cache) (k : String) (now ttl : Int)
    (provider : String → String) : String × Cache × Bool :=
  let lr := cacheLookup c k now
  match lr.1 with
  | some v => (v, lr.2, false)
  | none => (provider k, cacheInsert lr.2 k ⟨provider k, now + ttl⟩, true)

/-- Helper: an inserted key is found with exactly the inserted entry. -/
theorem cacheFind_insert_self (c : Cache) (k : String) (e : CacheEntry) :
    cacheFind (cacheInsert c k e) k = some e := by
  simp [cacheInsert, cacheFind]

/-- Helper: an erased key is no longer found. -/
theorem cacheFind_erase_self (c : Cache) (k : String) :
    cacheFind (cacheErase c k) k = none := by
  induction c with
  | nil => rfl
  | cons p rest ih =>
      rcases p with ⟨k2, e⟩
      by_cases h : k2 = k
      · simpa [cacheErase, h] using ih
      · simpa [cacheErase, cacheFind, h] using ih

/-- Claim C5 (cache modelled from the spec): a lookup is a hit iff now is
strictly before the stored expiry, a hit returns the stored payload
without touching the map, an expired or absent key is evicted and missed;
and when the cached payloads for k agree with the deterministic provider,
two requests for k issued within TTL of each other return the same
payload with at most one upstream call between them. -/
theorem C5_ttl_cache (c : Cache) (k : String) (ttl t1 t2 : Int)
    (provider : String → String)
    (hcoh : ∀ e, cacheFind c k = some e → e.value = provider k)
    (hwin : t2 < t1 + ttl) :
    (∀ (c0 : Cache) (now : Int),
      ((cacheLookup c0 k now).1.isSome = true ↔
        ∃ e, cacheFind c0 k = some e ∧ now < e.expiresAt)
      ∧ (∀ e, cacheFind c0 k = some e → now < e.expiresAt →
          cacheLookup c0 k now = (some e.value, c0))
      ∧ ((cacheLookup c0 k now).1 = none →
          cacheFind (cacheLookup c0 k now).2 k = none))
    ∧ (cacheRequest c k t1 ttl provider).1 = provider k
    ∧ (cacheRequest ((cacheRequest c k t1 ttl provider).2.1) k t2 ttl provider).1
        = (cacheRequest c k t1 ttl provider).1
    ∧ ((cacheRequest c k t1 ttl provider).2.2 = true →
        (cacheRequest ((cacheRequest c k t1 ttl provider).2.1) k t2 ttl
          provider).2.2 = false) := by
  constructor
  · intro c0 now
    rcases h : cacheFind c0 k with _ | e
    · refine ⟨by simp [cacheLookup, h], fun e he => ?_, fun _ => ?_⟩
      · exact Option.noConfusion he
      · have hl : cacheLookup c0 k now = (none, c0) := by
          simp [cacheLookup, h]
        rw [hl]
        exact h
    · by_cases ht : now < e.expiresAt
      · refine ⟨?_, fun e2 he2 _ => ?_, fun hmiss => ?_⟩
        · exact iff_of_true (by simp [cacheLookup, h, ht]) ⟨e, rfl, ht⟩
        · cases he2
          simp [cacheLookup, h, ht]
        · simp [cacheLookup, h, ht] at hmiss
      · refine ⟨?_, fun e2 he2 ht2 => ?_, fun _ => ?_⟩
        · refine iff_of_false (by simp [cacheLookup, h, ht]) ?_
          rintro ⟨e2, he2, ht2⟩
          cases he2
          exact ht ht2
        · cases he2
          exact absurd ht2 ht
        · have hl : cacheLookup c0 k now = (none, cacheErase c0 k) := by
            simp [cacheLookup, h, ht]
          rw [hl]
          exact cacheFind_erase_self c0 k
  · rcases h : cacheFind c k with _ | e
    · have h1 : cacheRequest c k t1 ttl provider
          = (provider k, cacheInsert c k ⟨provider k, t1 + ttl⟩, true) := by
        simp [cacheRequest, cacheLookup, h]
      have hfind := cacheFind_insert_self c k ⟨provider k, t1 + ttl⟩
      have h2 : cacheRequest (cacheInsert c k ⟨provider k, t1 + ttl⟩) k t2 ttl
            provider
          = (provider k, cacheInsert c k ⟨provider k, t1 + ttl⟩, false) := by
        simp [cacheRequest, cacheLookup, hfind, hwin]
      rw [h1]
      exact ⟨rfl, by rw [h2], fun _ => by rw [h2]⟩
    · by_cases ht : t1 < e.expiresAt
      · have hv : e.value = provider k := hcoh e h
        have h1 : cacheRequest c k t1 ttl provider = (e.value, c, false) := by
          simp [cacheRequest, cacheLookup, h, ht]
        by_cases ht2 : t2 < e.expiresAt
        · have h2 : cacheRequest c k t2 ttl provider = (e.value, c, false) := by
            simp [cacheRequest, cacheLookup, h, ht2]
          rw [h1]
          exact ⟨hv, by rw [h2], fun hb => by cases hb⟩
        · have h2 : cacheRequest c k t2 ttl provider
              = (provider k,
                  cacheInsert (cacheErase c k) k ⟨provider k, t2 + ttl⟩, true) := by
            simp [cacheRequest, cacheLookup, h, ht2]
          rw [h1]
          refine ⟨hv, ?_, fun hb => by cases hb⟩
          rw [h2]
          exact hv.symm
      · have h1 : cacheRequest c k t1 ttl provider
            = (provider k,
                cacheInsert (cacheErase c k) k ⟨provider k, t1 + ttl⟩, true) := by
          simp [cacheRequest, cacheLookup, h, ht]
        have hfind :=
          cacheFind_insert_self (cacheErase c k) k ⟨provider k, t1 + ttl⟩
        have h2 : cacheRequest
              (cacheInsert (cacheErase c k) k ⟨provider k, t1 + ttl⟩) k t2 ttl
              provider
            = (provider k,
                cacheInsert (cacheErase c k) k ⟨provider k, t1 + ttl⟩, false) := by
          simp [cacheRequest, cacheLookup, hfind, hwin]
        rw [h1]
        exact ⟨rfl, by rw [h2], fun _ => by rw [h2]⟩

/-- Witness for C5_ttl_cache: an empty cache, the default TTL of 21600,
and a second request 100 time units after the first. -/
theorem C5_ttl_cache_witness :
    (cacheRequest [] "overview:AAPL" 0 21600 (fun _ => "payload")).1
      = "payload" :=
  (C5_ttl_cache [] "overview:AAPL" 21600 0 100 (fun _ => "payload")
    (fun _ h => Option.noConfusion h) (by norm_num)).2.1

end Demo101
